import Mathlib

/-!
Verification of the industry-aware financial health scoring engine of the
nexus-caiwu-agent repository.  The Python sources embedded here are
`scripts/industry_benchmarks.py`, `scripts/industry_classifier.py`,
`scripts/industry_scorer.py` and the metric/health functions of
`scripts/fetch_data.py`.  Numbers are modelled as exact rationals; Python
`round(x, 2)` is modelled as round-half-to-even on rationals; Python dicts
of metrics are modelled as association lists in insertion order, with
values `Option ℚ` (`none` models Python `None`).
-/

/-- Round-half-to-even of a rational to an integer, the tie-breaking used by
Python `round`. -/
def rhalfEven (q : ℚ) : ℤ :=
  if q - (⌊q⌋ : ℚ) < 1/2 then ⌊q⌋
  else if 1/2 < q - (⌊q⌋ : ℚ) then ⌊q⌋ + 1
  else if 2 ∣ ⌊q⌋ then ⌊q⌋ else ⌊q⌋ + 1

/-- Python `round(q, 2)` on exact rationals. -/
def round2 (q : ℚ) : ℚ := ((rhalfEven (q * 100) : ℤ) : ℚ) / 100

theorem rhalfEven_intCast (n : ℤ) : rhalfEven (n : ℚ) = n := by
  unfold rhalfEven
  rw [Int.floor_intCast]
  norm_num

theorem rhalfEven_ge_floor (q : ℚ) : ⌊q⌋ ≤ rhalfEven q := by
  unfold rhalfEven
  split_ifs <;> omega

theorem rhalfEven_le_floor_add_one (q : ℚ) : rhalfEven q ≤ ⌊q⌋ + 1 := by
  unfold rhalfEven
  split_ifs <;> omega

theorem rhalfEven_mono {a b : ℚ} (h : a ≤ b) : rhalfEven a ≤ rhalfEven b := by
  have hf : ⌊a⌋ ≤ ⌊b⌋ := Int.floor_le_floor h
  rcases eq_or_lt_of_le hf with heq | hlt
  · have heqQ : ((⌊a⌋ : ℤ) : ℚ) = ((⌊b⌋ : ℤ) : ℚ) := by rw [heq]
    unfold rhalfEven
    split_ifs <;> first | omega | (exfalso; first | omega | linarith)
  · calc rhalfEven a ≤ ⌊a⌋ + 1 := rhalfEven_le_floor_add_one a
    _ ≤ ⌊b⌋ := by omega
    _ ≤ rhalfEven b := rhalfEven_ge_floor b

theorem round2_mono {a b : ℚ} (h : a ≤ b) : round2 a ≤ round2 b := by
  unfold round2
  have h100 : a * 100 ≤ b * 100 := by linarith
  have := rhalfEven_mono h100
  have hc : ((rhalfEven (a * 100) : ℤ) : ℚ) ≤ ((rhalfEven (b * 100) : ℤ) : ℚ) := by
    exact_mod_cast this
  linarith

theorem round2_eq_self_of_mul_int {q : ℚ} {m : ℤ} (h : q * 100 = (m : ℚ)) : round2 q = q := by
  unfold round2
  rw [h, rhalfEven_intCast]
  have : q = (m : ℚ) / 100 := by
    field_simp at h ⊢
    linarith
  rw [this]

theorem round2_zero : round2 0 = 0 := by
  exact round2_eq_self_of_mul_int (m := 0) (by norm_num)

theorem round2_nonneg {a : ℚ} (h : 0 ≤ a) : 0 ≤ round2 a := by
  have := round2_mono h
  rwa [round2_zero] at this

theorem round2_hundred : round2 100 = 100 := by
  exact round2_eq_self_of_mul_int (m := 10000) (by norm_num)

/-- A rational that is an integer number of hundredths; Python `round(x,2)`
is the identity on such numbers. -/
def Cent (q : ℚ) : Prop := ∃ m : ℤ, q * 100 = (m : ℚ)

theorem cent_of_den_eq_one {q : ℚ} (h : (q * 100).den = 1) : Cent q := by
  refine ⟨(q * 100).num, ?_⟩
  have h2 := Rat.num_div_den (q * 100)
  rw [h] at h2
  simpa using h2.symm

theorem round2_eq_self_of_cent {q : ℚ} (h : Cent q) : round2 q = q := by
  obtain ⟨m, hm⟩ := h
  exact round2_eq_self_of_mul_int hm

theorem cent_zero : Cent 0 := ⟨0, by norm_num⟩

theorem cent_add {a b : ℚ} (ha : Cent a) (hb : Cent b) : Cent (a + b) := by
  obtain ⟨m, hm⟩ := ha
  obtain ⟨n, hn⟩ := hb
  exact ⟨m + n, by push_cast; linarith⟩

theorem cent_hundred_mul {w : ℚ} (hw : Cent w) : Cent (100 * w) := by
  obtain ⟨m, hm⟩ := hw
  exact ⟨100 * m, by push_cast; linarith⟩

/-! ### Association-list model of Python dicts -/

/-- Python `d.get(k)`: `none` when the key is absent, otherwise the stored
value (which may itself be `none`, modelling a stored Python `None`). -/
def dget {α : Type} : List (String × α) → String → Option α
  | [], _ => none
  | (k, v) :: rest, key => if k = key then some v else dget rest key

/-- A metrics dictionary: string keys to numeric-or-`None` values. -/
abbrev Metrics := List (String × Option ℚ)

/-- Lookup that flattens presence and non-null: `some v` exactly when the key
is present with a non-null numeric value. -/
def dgetJ (m : Metrics) (k : String) : Option ℚ := (dget m k).bind id

/-- `safe_float` from the sources: `None` becomes the default, numbers pass
through (values are already numeric in this model). -/
def safe_float (value : Option ℚ) (default : ℚ) : ℚ := value.getD default

/-- Python `a or b` on an optional numeric left operand: absent and `0` are
falsy. Used for the alias chains in `calculate_advanced_metrics`. -/
def pyOr (a : Option ℚ) (b : ℚ) : ℚ :=
  match a with
  | some v => if v = 0 then b else v
  | none => b

/-- Python `metrics.get(k) or d` as used in `calculate_health_score_v2`:
a missing key, a stored `None` and a stored `0` all give the default. -/
def pyGetOr (m : Metrics) (k : String) (d : ℚ) : ℚ := pyOr (dgetJ m k) d

/-- Python `safe_float(metrics.get(k, pydefault))` as used for the special
rules in `calculate_industry_adjusted_score`: a missing key gives
`pydefault`, a stored `None` gives `0.0` (the `safe_float` default), and a
stored number passes through. -/
def ruleGet (m : Metrics) (k : String) (pydefault : ℚ) : ℚ :=
  safe_float ((dget m k).getD (some pydefault)) 0

/-! ### Character-level string helpers (Python `in` and `startswith`) -/

/-- Whether the first character list is a prefix of the second. -/
def isPrefixChars : List Char → List Char → Bool
  | [], _ => true
  | _ :: _, [] => false
  | a :: as, b :: bs => a == b && isPrefixChars as bs

/-- Whether the first character list occurs as a contiguous substring of the
second; Python `needle in hay` for strings. -/
def isSubstrChars (p : List Char) : List Char → Bool
  | [] => p.isEmpty
  | c :: t => isPrefixChars p (c :: t) || isSubstrChars p t

/-- Python `needle in hay` for strings. -/
def strContains (hay needle : String) : Bool := isSubstrChars needle.toList hay.toList

/-! ### Data model from industry_benchmarks.py -/

/-- One metric benchmark `{min, max, ideal, weight}`. -/
structure Benchmark where
  min : ℚ
  max : ℚ
  ideal : ℚ
  weight : ℚ
deriving DecidableEq

/-- The special-rule flags that the scorer actually reads: the other flags in
the source table are never consulted by any code under verification. -/
structure SpecialRules where
  debt_tolerance_high : Bool
  cashflow_critical : Bool
  high_rd_bonus : Bool
deriving DecidableEq

/-- One industry entry of `INDUSTRY_BENCHMARKS`. -/
structure Industry where
  id : String
  name : String
  name_en : String
  description : String
  keywords : List String
  stock_patterns : List String
  stock_examples : List String
  metrics : List (String × Benchmark)
  special_rules : SpecialRules
deriving DecidableEq

def technologyIndustry : Industry :=
  { id := "technology", name := "高科技", name_en := "Technology"
  , description := "软件、半导体、人工智能、云计算等"
  , keywords := ["软件", "半导体", "芯片", "人工智能", "云计算", "互联网", "电子", "计算机", "通信设备"]
  , stock_patterns := ["688"]
  , stock_examples := ["688981", "688256", "688008", "300750", "002415"]
  , metrics :=
    [ ("gross_margin", ⟨40, 70, 55, 0.15⟩)
    , ("net_margin", ⟨10, 35, 22, 0.15⟩)
    , ("roe", ⟨10, 30, 18, 0.25⟩)
    , ("roa", ⟨5, 18, 12, 0.10⟩)
    , ("debt_ratio", ⟨15, 50, 30, 0.10⟩)
    , ("asset_turnover", ⟨0.4, 1.2, 0.8, 0.10⟩)
    , ("rd_ratio", ⟨3, 25, 12, 0.15⟩) ]
  , special_rules := ⟨false, false, true⟩ }

def manufacturingIndustry : Industry :=
  { id := "manufacturing", name := "制造业", name_en := "Manufacturing"
  , description := "机械、设备、汽车、家电、零部件等"
  , keywords := ["制造", "机械", "设备", "汽车", "家电", "零部件", "装备", "工业"]
  , stock_patterns := []
  , stock_examples := ["600031", "000651", "000333", "601012", "002594"]
  , metrics :=
    [ ("gross_margin", ⟨12, 35, 22, 0.20⟩)
    , ("net_margin", ⟨4, 15, 8, 0.20⟩)
    , ("roe", ⟨6, 20, 12, 0.25⟩)
    , ("roa", ⟨3, 12, 7, 0.10⟩)
    , ("debt_ratio", ⟨30, 65, 45, 0.15⟩)
    , ("asset_turnover", ⟨0.5, 1.8, 1.0, 0.10⟩) ]
  , special_rules := ⟨false, false, false⟩ }

def constructionIndustry : Industry :=
  { id := "construction", name := "建筑", name_en := "Construction"
  , description := "建筑、工程、基建、房建、装修等"
  , keywords := ["建筑", "工程", "基建", "房建", "装修", "园林", "装饰", "施工"]
  , stock_patterns := []
  , stock_examples := ["601668", "601390", "601800", "601669", "601186"]
  , metrics :=
    [ ("gross_margin", ⟨6, 15, 10, 0.15⟩)
    , ("net_margin", ⟨1.5, 5, 3, 0.20⟩)
    , ("roe", ⟨6, 18, 12, 0.25⟩)
    , ("roa", ⟨1, 5, 2.5, 0.10⟩)
    , ("debt_ratio", ⟨65, 85, 75, 0.10⟩)
    , ("asset_turnover", ⟨0.25, 0.7, 0.45, 0.10⟩)
    , ("ocf_to_np", ⟨0.5, 1.5, 0.9, 0.10⟩) ]
  , special_rules := ⟨true, true, false⟩ }

def retailIndustry : Industry :=
  { id := "retail", name := "零售", name_en := "Retail"
  , description := "零售、商贸、百货、超市、电商、贸易等"
  , keywords := ["零售", "商贸", "百货", "超市", "电商", "贸易", "销售", "连锁"]
  , stock_patterns := []
  , stock_examples := ["601933", "002024", "002714", "600694", "601888"]
  , metrics :=
    [ ("gross_margin", ⟨12, 40, 25, 0.15⟩)
    , ("net_margin", ⟨2, 10, 5, 0.20⟩)
    , ("roe", ⟨8, 25, 15, 0.25⟩)
    , ("roa", ⟨4, 15, 8, 0.10⟩)
    , ("debt_ratio", ⟨35, 70, 50, 0.10⟩)
    , ("asset_turnover", ⟨1.2, 4.0, 2.5, 0.20⟩) ]
  , special_rules := ⟨false, false, false⟩ }

def financeIndustry : Industry :=
  { id := "finance", name := "金融", name_en := "Finance"
  , description := "银行、证券、保险、信托、租赁等"
  , keywords := ["银行", "证券", "保险", "信托", "租赁", "金融", "投资"]
  , stock_patterns := ["601", "60", "002"]
  , stock_examples := ["601398", "601318", "601166", "000001", "600030"]
  , metrics :=
    [ ("roe", ⟨8, 22, 14, 0.35⟩)
    , ("roa", ⟨0.5, 1.5, 1.0, 0.20⟩)
    , ("debt_ratio", ⟨85, 96, 91, 0.05⟩)
    , ("net_margin", ⟨20, 50, 35, 0.25⟩)
    , ("cost_to_income", ⟨25, 45, 32, 0.15⟩) ]
  , special_rules := ⟨false, false, false⟩ }

def realEstateIndustry : Industry :=
  { id := "real_estate", name := "房地产", name_en := "Real Estate"
  , description := "房地产开发、经营、物业、园区等"
  , keywords := ["房地产", "地产", "物业", "园区", "置业", "开发"]
  , stock_patterns := []
  , stock_examples := ["000002", "600048", "001979", "600383", "000656"]
  , metrics :=
    [ ("gross_margin", ⟨18, 45, 30, 0.15⟩)
    , ("net_margin", ⟨6, 18, 11, 0.20⟩)
    , ("roe", ⟨6, 22, 13, 0.25⟩)
    , ("roa", ⟨2, 8, 4, 0.10⟩)
    , ("debt_ratio", ⟨55, 88, 72, 0.15⟩)
    , ("asset_turnover", ⟨0.15, 0.5, 0.3, 0.10⟩)
    , ("ocf_to_np", ⟨0.3, 1.5, 0.8, 0.05⟩) ]
  , special_rules := ⟨true, true, false⟩ }

def consumerIndustry : Industry :=
  { id := "consumer", name := "消费品", name_en := "Consumer Goods"
  , description := "食品、饮料、白酒、医药、纺织、日化等"
  , keywords := ["食品", "饮料", "白酒", "医药", "纺织", "服装", "日化", "化妆品", "调味品"]
  , stock_patterns := []
  , stock_examples := ["600519", "603288", "000858", "600887", "002304"]
  , metrics :=
    [ ("gross_margin", ⟨25, 70, 50, 0.20⟩)
    , ("net_margin", ⟨8, 30, 18, 0.20⟩)
    , ("roe", ⟨12, 35, 22, 0.30⟩)
    , ("roa", ⟨6, 20, 12, 0.10⟩)
    , ("debt_ratio", ⟨15, 50, 28, 0.10⟩)
    , ("asset_turnover", ⟨0.4, 1.2, 0.75, 0.10⟩) ]
  , special_rules := ⟨false, false, false⟩ }

def energyIndustry : Industry :=
  { id := "energy", name := "能源", name_en := "Energy"
  , description := "石油、天然气、煤炭、电力、新能源等"
  , keywords := ["石油", "天然气", "煤炭", "电力", "新能源", "光伏", "风电", "核电", "采掘"]
  , stock_patterns := []
  , stock_examples := ["601857", "600900", "601899", "600021", "000400"]
  , metrics :=
    [ ("gross_margin", ⟨12, 40, 25, 0.15⟩)
    , ("net_margin", ⟨4, 18, 10, 0.20⟩)
    , ("roe", ⟨5, 16, 10, 0.25⟩)
    , ("roa", ⟨2, 10, 5, 0.10⟩)
    , ("debt_ratio", ⟨35, 75, 55, 0.15⟩)
    , ("asset_turnover", ⟨0.25, 0.9, 0.55, 0.15⟩) ]
  , special_rules := ⟨false, false, false⟩ }

def utilitiesIndustry : Industry :=
  { id := "utilities", name := "公用事业", name_en := "Utilities"
  , description := "水务、燃气、供热、环保、污水处理等"
  , keywords := ["水务", "燃气", "供热", "环保", "污水", "固废", "环境"]
  , stock_patterns := []
  , stock_examples := ["600011", "600323", "000685", "600874", "601199"]
  , metrics :=
    [ ("gross_margin", ⟨20, 50, 35, 0.15⟩)
    , ("net_margin", ⟨6, 20, 13, 0.20⟩)
    , ("roe", ⟨5, 14, 9, 0.30⟩)
    , ("roa", ⟨2, 8, 4, 0.10⟩)
    , ("debt_ratio", ⟨45, 80, 62, 0.15⟩)
    , ("asset_turnover", ⟨0.2, 0.7, 0.4, 0.10⟩) ]
  , special_rules := ⟨false, false, false⟩ }

def telecomIndustry : Industry :=
  { id := "telecom", name := "通信", name_en := "Telecommunications"
  , description := "电信、移动、联通、通信设备等"
  , keywords := ["电信", "移动", "联通", "通信", "5G", "基站", "光纤"]
  , stock_patterns := []
  , stock_examples := ["600941", "600050", "000063", "601728", "002468"]
  , metrics :=
    [ ("gross_margin", ⟨25, 60, 42, 0.15⟩)
    , ("net_margin", ⟨8, 22, 15, 0.20⟩)
    , ("roe", ⟨6, 18, 12, 0.30⟩)
    , ("roa", ⟨3, 10, 6, 0.10⟩)
    , ("debt_ratio", ⟨30, 65, 45, 0.15⟩)
    , ("asset_turnover", ⟨0.35, 1.0, 0.6, 0.10⟩) ]
  , special_rules := ⟨false, false, false⟩ }

def transportationIndustry : Industry :=
  { id := "transportation", name := "交通运输", name_en := "Transportation"
  , description := "航空、机场、港口、航运、物流、快递等"
  , keywords := ["航空", "机场", "港口", "航运", "物流", "快递", "铁路", "交通"]
  , stock_patterns := []
  , stock_examples := ["601111", "002352", "600029", "601919", "601006"]
  , metrics :=
    [ ("gross_margin", ⟨12, 40, 25, 0.15⟩)
    , ("net_margin", ⟨4, 16, 10, 0.20⟩)
    , ("roe", ⟨5, 16, 10, 0.25⟩)
    , ("roa", ⟨2, 10, 5, 0.10⟩)
    , ("debt_ratio", ⟨35, 75, 55, 0.15⟩)
    , ("asset_turnover", ⟨0.25, 0.9, 0.55, 0.15⟩) ]
  , special_rules := ⟨false, false, false⟩ }

def materialsIndustry : Industry :=
  { id := "materials", name := "原材料", name_en := "Materials"
  , description := "钢铁、有色金属、化工、建材、造纸等"
  , keywords := ["钢铁", "有色金属", "化工", "建材", "造纸", "玻璃", "水泥", "金属"]
  , stock_patterns := []
  , stock_examples := ["600019", "601600", "600585", "000895", "002601"]
  , metrics :=
    [ ("gross_margin", ⟨8, 30, 17, 0.15⟩)
    , ("net_margin", ⟨2, 12, 6, 0.20⟩)
    , ("roe", ⟨4, 18, 10, 0.25⟩)
    , ("roa", ⟨2, 10, 5, 0.10⟩)
    , ("debt_ratio", ⟨35, 75, 55, 0.15⟩)
    , ("asset_turnover", ⟨0.4, 1.5, 0.85, 0.15⟩) ]
  , special_rules := ⟨false, false, false⟩ }

/-- The 12-industry table, in the insertion order of the source dict. -/
def INDUSTRY_BENCHMARKS : List Industry :=
  [ technologyIndustry, manufacturingIndustry, constructionIndustry, retailIndustry
  , financeIndustry, realEstateIndustry, consumerIndustry, energyIndustry
  , utilitiesIndustry, telecomIndustry, transportationIndustry, materialsIndustry ]

/-- `SW_INDUSTRY_MAPPING`: Shenwan level-1 sector to industry id. -/
def SW_INDUSTRY_MAPPING : List (String × String) :=
  [ ("银行", "finance"), ("非银金融", "finance")
  , ("房地产", "real_estate"), ("建筑装饰", "construction"), ("建筑材料", "materials")
  , ("钢铁", "materials"), ("有色金属", "materials"), ("化工", "materials")
  , ("基础化工", "materials"), ("石油石化", "energy"), ("煤炭", "materials")
  , ("电力设备", "energy"), ("公用事业", "utilities")
  , ("交通运输", "transportation")
  , ("汽车", "manufacturing"), ("机械设备", "manufacturing")
  , ("国防军工", "manufacturing"), ("电气设备", "manufacturing")
  , ("电子", "technology"), ("计算机", "technology"), ("通信", "telecom"), ("传媒", "technology")
  , ("食品饮料", "consumer"), ("家用电器", "consumer"), ("纺织服饰", "consumer")
  , ("轻工制造", "consumer"), ("医药生物", "consumer"), ("美容护理", "consumer")
  , ("商贸零售", "retail"), ("社会服务", "consumer")
  , ("农林牧渔", "consumer"), ("综合", "manufacturing") ]

/-- `get_industry_info`: table lookup with the manufacturing fallback. -/
def get_industry_info (industry_id : String) : Industry :=
  (INDUSTRY_BENCHMARKS.find? (fun ind => ind.id == industry_id)).getD manufacturingIndustry

/-- `get_industry_by_sw`: Shenwan mapping with the manufacturing fallback. -/
def get_industry_by_sw (sw_industry : String) : String :=
  (dget SW_INDUSTRY_MAPPING sw_industry).getD "manufacturing"

/-! ### industry_classifier.py -/

/-- Python `str.zfill(6)`: left-pad with zeros to width 6, keeping a leading
sign in front of the padding. -/
def zfill6 (s : String) : String :=
  if s.length ≥ 6 then s
  else if s.startsWith "-" ∨ s.startsWith "+" then
    (s.take 1) ++ String.mk (List.replicate (6 - s.length) '0') ++ s.drop 1
  else String.mk (List.replicate (6 - s.length) '0') ++ s

/-- `IndustryClassifier.classify_by_stock_code`. -/
def classify_by_stock_code (stock_code : String) : Option String :=
  let code := zfill6 stock_code.trim
  if code.startsWith "688" then some "technology"
  else if code.startsWith "300" then some "technology"
  else if code.startsWith "8" ∨ code.startsWith "4" then some "manufacturing"
  else
    match INDUSTRY_BENCHMARKS.find? (fun ind => ind.stock_examples.contains code) with
    | some ind => some ind.id
    | none =>
      match INDUSTRY_BENCHMARKS.find? (fun ind => ind.stock_patterns.any (fun p => code.startsWith p)) with
      | some ind => some ind.id
      | none => none

/-- The raw (un-normalised) keyword score of one industry against a lowered
company name: +1 per keyword occurring as a substring, +2 per keyword that
equals the name or that the name starts with. -/
def nameScoreRaw (ind : Industry) (lname : String) : ℕ :=
  (ind.keywords.filter (fun kw => strContains lname kw.toLower)).length
  + 2 * (ind.keywords.filter (fun kw => kw.toLower = lname ∨ lname.startsWith kw.toLower)).length

/-- `IndustryClassifier.classify_by_name`: industry id to normalised
confidence, in the iteration order of the benchmark dict, positive scores
only. -/
def classify_by_name (company_name : String) : List (String × ℚ) :=
  let lname := company_name.toLower
  INDUSTRY_BENCHMARKS.filterMap (fun ind =>
    let score := nameScoreRaw ind lname
    if score > 0 then some (ind.id, (score : ℚ) / (ind.keywords.length : ℚ)) else none)

/-- Python `max(items, key=lambda x: x[1])[0]` starting from a first
candidate: the first item attaining the maximal score wins. -/
def argmaxFirst (bk : String) (bv : ℚ) : List (String × ℚ) → String
  | [] => bk
  | (k, v) :: rest => if v > bv then argmaxFirst k v rest else argmaxFirst bk bv rest

/-- `IndustryClassifier.classify`.  The optional Shenwan sector tag is
`Option String` (`none` models Python `None`); an empty company name models
both `""` and Python `None` (both falsy). -/
def classify (stock_code : String) (company_name : String) (sw_industry : Option String) : String :=
  let step1 : Option String :=
    match sw_industry with
    | some sw =>
      if sw ≠ "" then
        (if get_industry_by_sw sw ≠ "manufacturing" then some (get_industry_by_sw sw) else none)
      else none
    | none => none
  match step1 with
  | some i => i
  | none =>
    match classify_by_stock_code stock_code with
    | some i => i
    | none =>
      if company_name ≠ "" then
        match classify_by_name company_name with
        | [] => "manufacturing"
        | (k, v) :: rest => argmaxFirst k v rest
      else "manufacturing"

/-! ### industry_scorer.py -/

/-- The result dict of `IndustryScorer.calculate_metric_score` (the
presentational `industry_range` string is not modelled; no code under
verification reads it). -/
structure MetricScore where
  score : ℚ
  weighted_score : ℚ
  rating : String
  value : Option ℚ
  industry_ideal : ℚ
  name_cn : String := ""
deriving DecidableEq

/-- `IndustryScorer.calculate_metric_score`. -/
def calculate_metric_score (value : Option ℚ) (min_val max_val ideal : ℚ) (weight : ℚ) : MetricScore :=
  match value with
  | none =>
    { score := 0, weighted_score := 0, rating := "无数据", value := none, industry_ideal := ideal }
  | some v =>
    let rawScore : ℚ :=
      if min_val ≤ v ∧ v ≤ max_val then
        if max_val - min_val = 0 then (if v = ideal then 100 else 50)
        else max 0 (100 * (1 - |v - ideal| / ((max_val - min_val) / 2)))
      else if v < min_val then
        (if min_val ≠ 0 then max 0 (100 * (v / min_val)) else 0)
      else
        (if v ≠ 0 then max 0 (100 * (max_val / v)) else 0)
    let score := round2 rawScore
    let rating : String :=
      if score ≥ 80 then "优秀"
      else if score ≥ 60 then "良好"
      else if score ≥ 40 then "一般"
      else if score ≥ 20 then "较差"
      else "差"
    { score := score, weighted_score := round2 (score * weight), rating := rating
    , value := some (round2 v), industry_ideal := ideal }

/-- The per-metric alias table of `calculate_industry_adjusted_score`
(first present, non-null alias wins); a name outside the table has only
itself as alias. -/
def aliasesFor (name : String) : List String :=
  if name = "gross_margin" then ["gross_margin", "毛利率"]
  else if name = "net_margin" then ["net_profit_margin", "net_margin", "净利率"]
  else if name = "roe" then ["roe"]
  else if name = "roa" then ["roa"]
  else if name = "debt_ratio" then ["debt_ratio", "资产负债率"]
  else if name = "asset_turnover" then ["asset_turnover", "资产周转率"]
  else if name = "ocf_to_np" then ["ocf_to_np", "现金流/净利润"]
  else if name = "rd_ratio" then ["rd_ratio", "研发费用率"]
  else [name]

/-- First alias that is present with a non-null value. -/
def firstAliasValue (m : Metrics) : List String → Option ℚ
  | [] => none
  | a :: rest =>
    match dgetJ m a with
    | some v => some v
    | none => firstAliasValue m rest

/-- Value resolution of step 3 of `calculate_industry_adjusted_score`:
direct key first, then the alias list. -/
def resolveMetricValue (m : Metrics) (name : String) : Option ℚ :=
  match dgetJ m name with
  | some v => some v
  | none => firstAliasValue m (aliasesFor name)

/-- The Chinese display-name table `metric_names_cn`. -/
def metricNameCn (name : String) : String :=
  if name = "gross_margin" then "毛利率"
  else if name = "net_margin" then "净利率"
  else if name = "roe" then "净资产收益率(ROE)"
  else if name = "roa" then "总资产收益率(ROA)"
  else if name = "debt_ratio" then "资产负债率"
  else if name = "asset_turnover" then "总资产周转率"
  else if name = "ocf_to_np" then "现金流/净利润比"
  else if name = "rd_ratio" then "研发费用率"
  else if name = "cost_to_income" then "成本收入比"
  else name

/-- The scoring loop of `calculate_industry_adjusted_score`: builds
`dimension_scores` in iteration order and accumulates
`total_weighted_score` and `total_max_score`; unresolvable metrics are
skipped. -/
def scoreLoop (m : Metrics) (entries : List (String × Benchmark))
    (dims : List (String × MetricScore)) (tws tms : ℚ) :
    List (String × MetricScore) × ℚ × ℚ :=
  match entries with
  | [] => (dims, tws, tms)
  | (name, config) :: rest =>
    match resolveMetricValue m name with
    | none => scoreLoop m rest dims tws tms
    | some v =>
      let r0 := calculate_metric_score (some v) config.min config.max config.ideal config.weight
      let r := { r0 with name_cn := metricNameCn name }
      scoreLoop m rest (dims ++ [(name, r)]) (tws + r.weighted_score) (tms + 100 * config.weight)

/-- One row of the `industry_comparison` dict. -/
structure ComparisonEntry where
  company_value : ℚ
  industry_ideal : ℚ
  difference : ℚ
  difference_pct : ℚ
  status : String
  status_cn : String
deriving DecidableEq

/-- `IndustryScorer._generate_comparison`: note that it reads the company
value with a direct `company_metrics.get(metric_name)` only, without the
alias table of the scoring loop. -/
def generate_comparison (company_metrics : Metrics) : List (String × Benchmark) → List (String × ComparisonEntry)
  | [] => []
  | (name, config) :: rest =>
    match dgetJ company_metrics name with
    | none => generate_comparison company_metrics rest
    | some v0 =>
      let v := safe_float (some v0) 0
      if config.ideal = 0 then generate_comparison company_metrics rest
      else
        let diff := v - config.ideal
        let diff_pct := diff / config.ideal * 100
        let st : String × String :=
          if |diff_pct| ≤ 10 then ("at", "持平")
          else if diff > 0 then ("above", "优于")
          else ("below", "低于")
        (name, { company_value := round2 v, industry_ideal := config.ideal
               , difference := round2 diff, difference_pct := round2 diff_pct
               , status := st.1, status_cn := st.2 }) :: generate_comparison company_metrics rest

/-- `dimension_scores.get(name, {}).get("score", 0)`. -/
def dimsScore (dims : List (String × MetricScore)) (name : String) : ℚ :=
  match dget dims name with
  | some r => r.score
  | none => 0

/-- `IndustryScorer._generate_recommendations`. -/
def generate_recommendations (dimension_scores : List (String × MetricScore))
    (industry_id : String) (risk_level : String) : List String :=
  let base : String :=
    if risk_level = "低风险" then "财务状况优秀，行业竞争力强，可考虑配置"
    else if risk_level = "中低风险" then "财务状况良好，部分指标需关注"
    else if risk_level = "中等风险" then "财务状况一般，建议深入分析薄弱环节"
    else if risk_level = "中高风险" then "财务状况需警惕，存在明显风险点"
    else "财务状况高风险，建议回避"
  let info := get_industry_info industry_id
  let r1 : List String :=
    if info.special_rules.cashflow_critical ∧ dimsScore dimension_scores "ocf_to_np" < 40
    then ["现金流状况需重点关注"] else []
  let r2 : List String :=
    if info.special_rules.debt_tolerance_high then ["行业高负债为常态，需关注有息负债成本"] else []
  let r3 : List String :=
    if info.special_rules.high_rd_bonus ∧ dimsScore dimension_scores "rd_ratio" ≥ 60
    then ["研发投入较高，长期竞争力有保障"] else []
  let weak := dimension_scores.filter (fun p => p.2.score < 40)
  let r4 : List String :=
    if weak.isEmpty then []
    else ["需关注: " ++ String.intercalate ", " ((weak.map (fun p => p.2.name_cn)).take 3)]
  [base] ++ r1 ++ r2 ++ r3 ++ r4

/-- The sequential special-rule multiplier of step 4 of
`calculate_industry_adjusted_score`: starting from `1.0`, multiply by `0.8`
when the cashflow-critical rule fires and by `1.1` when the high-R&D rule
fires (the high-debt-tolerance rule only appends a note). -/
def adjFactor (m : Metrics) (info : Industry) : ℚ :=
  (if info.special_rules.cashflow_critical ∧ ruleGet m "ocf_to_np" 1 < 0.5 then 0.8 else 1)
  * (if info.special_rules.high_rd_bonus ∧ ruleGet m "rd_ratio" 0 > 15 then 1.1 else 1)

/-- The `industry` sub-dict of the result. -/
structure IndustryRef where
  id : String
  name : String
  name_en : String
  description : String
deriving DecidableEq

/-- The result dict of `IndustryScorer.calculate_industry_adjusted_score`. -/
structure IndustryScoreResult where
  industry : IndustryRef
  dimension_scores : List (String × MetricScore)
  raw_score : ℚ
  normalized_score : ℚ
  max_score : ℚ
  adjustment_factor : ℚ
  adjustment_notes : List String
  risk_level : String
  risk_class : String
  industry_comparison : List (String × ComparisonEntry)
  recommendations : List String
deriving DecidableEq

/-- `IndustryScorer.calculate_industry_adjusted_score`. -/
def calculate_industry_adjusted_score (metrics : Metrics) (stock_code : String)
    (company_name : String) (sw_industry : Option String) : IndustryScoreResult :=
  let industry_id := classify stock_code company_name sw_industry
  let info := get_industry_info industry_id
  let loopOut := scoreLoop metrics info.metrics [] 0 0
  let dims := loopOut.1
  let tws := loopOut.2.1
  let tms := loopOut.2.2
  let debtNotes : List String :=
    if info.special_rules.debt_tolerance_high ∧ ruleGet metrics "debt_ratio" 0 > 70
    then [info.name ++ "行业高负债为常态"] else []
  let cashNotes : List String :=
    if info.special_rules.cashflow_critical ∧ ruleGet metrics "ocf_to_np" 1 < 0.5
    then ["现金流严重恶化，扣减评分"] else []
  let rdNotes : List String :=
    if info.special_rules.high_rd_bonus ∧ ruleGet metrics "rd_ratio" 0 > 15
    then ["研发投入突出，加分奖励"] else []
  let adjustment_factor : ℚ := adjFactor metrics info
  let final_score := round2 (tws * adjustment_factor)
  let normalized_score := round2 (if tms > 0 then final_score / tms * 100 else 0)
  let risk : String × String :=
    if normalized_score ≥ 80 then ("低风险", "low")
    else if normalized_score ≥ 60 then ("中低风险", "medium-low")
    else if normalized_score ≥ 40 then ("中等风险", "medium")
    else if normalized_score ≥ 20 then ("中高风险", "medium-high")
    else ("高风险", "high")
  { industry := { id := industry_id, name := info.name, name_en := info.name_en
                , description := info.description }
  , dimension_scores := dims
  , raw_score := final_score
  , normalized_score := normalized_score
  , max_score := tms
  , adjustment_factor := round2 adjustment_factor
  , adjustment_notes := debtNotes ++ cashNotes ++ rdNotes
  , risk_level := risk.1
  , risk_class := risk.2
  , industry_comparison := generate_comparison metrics info.metrics
  , recommendations := generate_recommendations dims industry_id risk.1 }

/-! ### fetch_data.py: generic health scorer and derived metrics -/

/-- One dimension row of the `calculate_health_score_v2` result. -/
structure HealthDimension where
  score : ℚ
  maxPts : ℚ
  detail : String
deriving DecidableEq

/-- The result dict of `calculate_health_score_v2`. -/
structure HealthScoreResult where
  total_score : ℚ
  risk_level : String
  profitability : HealthDimension
  solvency : HealthDimension
  efficiency : HealthDimension
  growth : HealthDimension
  cashflow : HealthDimension
deriving DecidableEq

/-- The threshold tables of `calculate_health_score_v2` as a function of the
five driving values (each already coerced by `metrics.get(k) or default`). -/
def healthDimsCore (roe debt_ratio turnover npm ocf_ratio : ℚ) : HealthScoreResult :=
  let profitability : HealthDimension :=
    if roe > 15 then ⟨25, 25, "优秀 (ROE>15%)"⟩
    else if roe > 10 then ⟨20, 25, "良好 (ROE 10-15%)"⟩
    else if roe > 5 then ⟨15, 25, "一般 (ROE 5-10%)"⟩
    else if roe > 0 then ⟨10, 25, "较弱 (ROE 0-5%)"⟩
    else ⟨0, 25, "亏损"⟩
  let solvency : HealthDimension :=
    if debt_ratio < 40 then ⟨25, 25, "低风险 (负债率<40%)"⟩
    else if debt_ratio < 50 then ⟨20, 25, "适中 (负债率40-50%)"⟩
    else if debt_ratio < 60 then ⟨15, 25, "需关注 (负债率50-60%)"⟩
    else if debt_ratio < 70 then ⟨10, 25, "较高 (负债率60-70%)"⟩
    else ⟨5, 25, "高风险 (负债率>70%)"⟩
  let efficiency : HealthDimension :=
    if turnover > 1.0 then ⟨20, 20, "高效 (周转率>1.0)"⟩
    else if turnover > 0.7 then ⟨15, 20, "良好 (周转率0.7-1.0)"⟩
    else if turnover > 0.5 then ⟨10, 20, "一般 (周转率0.5-0.7)"⟩
    else if turnover > 0.3 then ⟨5, 20, "较低 (周转率0.3-0.5)"⟩
    else ⟨0, 20, "低效 (周转率<0.3)"⟩
  let growth : HealthDimension :=
    if npm > 10 then ⟨12, 15, "良好 (需历史数据确认)"⟩
    else if npm > 5 then ⟨8, 15, "一般 (需历史数据确认)"⟩
    else ⟨5, 15, "待评估"⟩
  let cashflow : HealthDimension :=
    if ocf_ratio > 1.2 then ⟨15, 15, "优秀 (现金流/净利润>1.2)"⟩
    else if ocf_ratio > 1.0 then ⟨12, 15, "良好 (现金流/净利润>1.0)"⟩
    else if ocf_ratio > 0.8 then ⟨8, 15, "一般 (现金流/净利润 0.8-1.0)"⟩
    else if ocf_ratio > 0.5 then ⟨4, 15, "需关注 (现金流/净利润 0.5-0.8)"⟩
    else if ocf_ratio > 0 then ⟨2, 15, "较差 (现金流/净利润<0.5)"⟩
    else ⟨0, 15, "很差 (经营现金流为负)"⟩
  let total_score := profitability.score + solvency.score + efficiency.score
    + growth.score + cashflow.score
  let risk_level : String :=
    if total_score ≥ 80 then "低风险"
    else if total_score ≥ 60 then "中低风险"
    else if total_score ≥ 40 then "中等风险"
    else if total_score ≥ 20 then "中高风险"
    else "高风险"
  ⟨total_score, risk_level, profitability, solvency, efficiency, growth, cashflow⟩

/-- `calculate_health_score_v2`: each driving metric is read with
`metrics.get(k) or default`, so absence, `None` and `0` all fall back to the
worst-case default (`100` for `debt_ratio`, `0` for the others). -/
def calculate_health_score_v2 (metrics : Metrics) : HealthScoreResult :=
  healthDimsCore (pyGetOr metrics "roe" 0) (pyGetOr metrics "debt_ratio" 100)
    (pyGetOr metrics "asset_turnover" 0) (pyGetOr metrics "net_profit_margin" 0)
    (pyGetOr metrics "ocf_to_np" 0)

/-- Extraction of `revenue` in `calculate_advanced_metrics` (a chain of
`dict.get(...) or ...`). -/
def advRevenue (income : Metrics) : ℚ :=
  pyOr (dgetJ income "TOTAL_OPERATE_INCOME")
    (pyOr (dgetJ income "营业收入") (pyOr (dgetJ income "营业总收入") 0))

def advCost (income : Metrics) : ℚ :=
  pyOr (dgetJ income "TOTAL_OPERATE_COST") (pyOr (dgetJ income "营业成本") 0)

def advNetProfit (income : Metrics) : ℚ :=
  pyOr (dgetJ income "NETPROFIT")
    (pyOr (dgetJ income "净利润") (pyOr (dgetJ income "归属于母公司所有者的净利润") 0))

def advOperatingProfit (income : Metrics) : ℚ :=
  pyOr (dgetJ income "OPERATE_PROFIT") (pyOr (dgetJ income "营业利润") 0)

def advTotalAssets (balance : Metrics) : ℚ :=
  pyOr (dgetJ balance "TOTAL_ASSETS") (pyOr (dgetJ balance "资产总计") 0)

def advTotalLiabilities (balance : Metrics) : ℚ :=
  pyOr (dgetJ balance "TOTAL_LIABILITIES") (pyOr (dgetJ balance "负债合计") 0)

def advCurrentAssets (balance : Metrics) : ℚ :=
  pyOr (dgetJ balance "TOTAL_CURRENT_ASSETS") (pyOr (dgetJ balance "流动资产合计") 0)

def advCurrentLiabilities (balance : Metrics) : ℚ :=
  pyOr (dgetJ balance "TOTAL_CURRENT_LIABILITIES") (pyOr (dgetJ balance "流动负债合计") 0)

def advInventory (balance : Metrics) : ℚ :=
  pyOr (dgetJ balance "INVENTORY") (pyOr (dgetJ balance "存货") 0)

/-- `equity = total_assets - total_liabilities`. -/
def advEquity (balance : Metrics) : ℚ := advTotalAssets balance - advTotalLiabilities balance

/-- The cash-flow block of `calculate_advanced_metrics` (entered only when a
cash-flow dict is supplied). -/
def advCashflowEntries (netProfit : ℚ) (cf : Metrics) : Metrics :=
  let operatingCf := pyOr (dgetJ cf "NETCASH_OPERATE") 0
  let investingCf := pyOr (dgetJ cf "NETCASH_INVEST") 0
  let financingCf := pyOr (dgetJ cf "NETCASH_FINANCE") 0
  let capex := pyOr (dgetJ cf "CONSTRUCT_LONG_ASSET") 0
  let netCashIncrease := pyOr (dgetJ cf "CCE_ADD") 0
  let endingCash := pyOr (dgetJ cf "END_CCE") 0
  let dividendsPaid := pyOr (dgetJ cf "ASSIGN_DIVIDEND_PORFIT") 0
  (if netProfit ≠ 0 then
      [("ocf_to_np", if operatingCf = 0 then none else some (round2 (operatingCf / netProfit * 100)))]
    else [])
  ++ [ ("operating_cash_flow_billion", if operatingCf = 0 then none else some (round2 (operatingCf / 100000000)))
     , ("investing_cash_flow_billion", some (round2 (investingCf / 100000000)))
     , ("financing_cash_flow_billion", some (round2 (financingCf / 100000000)))
     , ("free_cash_flow_billion", if operatingCf = 0 then none else some (round2 ((operatingCf - capex) / 100000000)))
     , ("capex_billion", if capex = 0 then none else some (round2 (capex / 100000000)))
     , ("net_cash_increase_billion", some (round2 (netCashIncrease / 100000000)))
     , ("ending_cash_billion", if endingCash = 0 then none else some (round2 (endingCash / 100000000)))
     , ("dividends_paid_billion", if dividendsPaid = 0 then none else some (round2 (dividendsPaid / 100000000))) ]
  ++ (if operatingCf > 0 ∧ netProfit > 0 then [("cash_quality", some (round2 (operatingCf / netProfit)))]
      else if operatingCf < 0 then [("cash_quality", some (-1))]
      else [])
  ++ (if operatingCf ≠ 0 then
        [("capex_ratio", if capex = 0 then none else some (round2 |capex / operatingCf * 100|))]
      else [])

/-- `calculate_advanced_metrics`: the metrics dict in insertion order; a key
is absent when its guarding denominator test fails and present with `none`
when only the numerator is falsy. -/
def calculate_advanced_metrics (income balance : Metrics) (cashflow : Option Metrics) : Metrics :=
  let revenue := advRevenue income
  let cost := advCost income
  let netProfit := advNetProfit income
  let operatingProfit := advOperatingProfit income
  let totalAssets := advTotalAssets balance
  let currentAssets := advCurrentAssets balance
  let currentLiabilities := advCurrentLiabilities balance
  let inventory := advInventory balance
  let equity := advEquity balance
  (if revenue > 0 then
      [ ("gross_margin", if cost = 0 then none else some (round2 ((revenue - cost) / revenue * 100)))
      , ("operating_margin", if operatingProfit = 0 then none else some (round2 (operatingProfit / revenue * 100))) ]
    else [])
  ++ (if equity > 0 then
        [("roe", if netProfit = 0 then none else some (round2 (netProfit / equity * 100)))]
      else [])
  ++ (if totalAssets > 0 then
        [("roa", if netProfit = 0 then none else some (round2 (netProfit / totalAssets * 100)))]
      else [])
  ++ (if currentLiabilities > 0 then
        [ ("current_ratio", if currentAssets = 0 then none else some (round2 (currentAssets / currentLiabilities)))
        , ("quick_ratio", if currentAssets = 0 then none else some (round2 ((currentAssets - inventory) / currentLiabilities))) ]
      else [])
  ++ (if equity > 0 then [("equity_multiplier", some (round2 (totalAssets / equity)))] else [])
  ++ (if totalAssets > 0 then
        [("asset_turnover", if revenue = 0 then none else some (round2 (revenue / totalAssets)))]
      else [])
  ++ (match cashflow with
      | none => []
      | some cf => advCashflowEntries netProfit cf)

/-! ### Support lemmas -/

theorem weighted_score_eq (v mn mx ideal w : ℚ) :
    (calculate_metric_score (some v) mn mx ideal w).weighted_score
      = round2 ((calculate_metric_score (some v) mn mx ideal w).score * w) := rfl

theorem metric_score_nonneg (value : Option ℚ) (mn mx ideal w : ℚ) :
    0 ≤ (calculate_metric_score value mn mx ideal w).score := by
  cases value with
  | none => simp [calculate_metric_score]
  | some v =>
    simp only [calculate_metric_score]
    apply round2_nonneg
    split_ifs <;> first | exact le_max_left _ _ | norm_num

theorem metric_score_le_100 (value : Option ℚ) {mn mx : ℚ} (ideal w : ℚ)
    (h0 : 0 ≤ mn) (h1 : mn ≤ mx) :
    (calculate_metric_score value mn mx ideal w).score ≤ 100 := by
  cases value with
  | none => simp [calculate_metric_score]
  | some v =>
    simp only [calculate_metric_score]
    refine le_trans (round2_mono ?_) round2_hundred.le
    split_ifs with hin hw hveq hlt hmn hne
    · norm_num
    · norm_num
    · apply max_le (by norm_num)
      have hd : (0 : ℚ) ≤ |v - ideal| := abs_nonneg _
      have hmx : 0 < mx - mn := lt_of_le_of_ne (by linarith) (fun h => hw h.symm)
      have hmd : 0 < (mx - mn) / 2 := by linarith
      have ht : 0 ≤ |v - ideal| / ((mx - mn) / 2) := div_nonneg hd hmd.le
      nlinarith
    · apply max_le (by norm_num)
      have hmn0 : 0 < mn := lt_of_le_of_ne h0 (Ne.symm hmn)
      have : v / mn ≤ 1 := (div_le_one hmn0).mpr hlt.le
      nlinarith
    · norm_num
    · apply max_le (by norm_num)
      have hge : mn ≤ v := not_lt.mp hlt
      have hv0 : 0 < v := lt_of_le_of_ne (h0.trans hge) (Ne.symm hne)
      have hgt : mx < v := by
        by_contra hcon
        exact hin ⟨hge, not_lt.mp hcon⟩
      have : mx / v ≤ 1 := (div_le_one hv0).mpr hgt.le
      nlinarith
    · norm_num

theorem metric_weighted_nonneg (value : Option ℚ) (mn mx ideal : ℚ) {w : ℚ} (hw : 0 ≤ w) :
    0 ≤ (calculate_metric_score value mn mx ideal w).weighted_score := by
  cases value with
  | none => simp [calculate_metric_score]
  | some v =>
    rw [weighted_score_eq]
    exact round2_nonneg (mul_nonneg (metric_score_nonneg _ _ _ _ _) hw)

theorem metric_weighted_le (value : Option ℚ) {mn mx : ℚ} (ideal : ℚ) {w : ℚ}
    (hw : 0 ≤ w) (hc : Cent w) (h0 : 0 ≤ mn) (h1 : mn ≤ mx) :
    (calculate_metric_score value mn mx ideal w).weighted_score ≤ 100 * w := by
  cases value with
  | none => simp [calculate_metric_score]; positivity
  | some v =>
    rw [weighted_score_eq]
    calc round2 ((calculate_metric_score (some v) mn mx ideal w).score * w)
        ≤ round2 (100 * w) :=
          round2_mono (mul_le_mul_of_nonneg_right (metric_score_le_100 _ _ _ h0 h1) hw)
      _ = 100 * w := round2_eq_self_of_cent (cent_hundred_mul hc)

/-- Well-formedness of a benchmark row as it holds throughout
`INDUSTRY_BENCHMARKS`: nonnegative ordered range and a nonnegative
two-decimal weight. -/
def BenchWf (b : Benchmark) : Prop :=
  0 ≤ b.min ∧ b.min ≤ b.max ∧ 0 ≤ b.weight ∧ (b.weight * 100).den = 1

instance : DecidablePred BenchWf := fun b => by unfold BenchWf; infer_instance

theorem industry_benchmarks_wf :
    ∀ ind ∈ INDUSTRY_BENCHMARKS, ∀ p ∈ ind.metrics, BenchWf p.2 := by
  with_unfolding_all decide

theorem industry_benchmarks_names_nodup :
    ∀ ind ∈ INDUSTRY_BENCHMARKS, (ind.metrics.map Prod.fst).Nodup := by
  with_unfolding_all decide

theorem get_industry_info_mem (industry_id : String) :
    get_industry_info industry_id ∈ INDUSTRY_BENCHMARKS := by
  unfold get_industry_info
  cases hf : INDUSTRY_BENCHMARKS.find? (fun ind => ind.id == industry_id) with
  | none =>
    show manufacturingIndustry ∈ INDUSTRY_BENCHMARKS
    exact List.Mem.tail _ (List.Mem.head _)
  | some ind =>
    show ind ∈ INDUSTRY_BENCHMARKS
    exact List.mem_of_find?_eq_some hf

theorem scoreLoop_bounds (m : Metrics) (entries : List (String × Benchmark))
    (hE : ∀ p ∈ entries, BenchWf p.2) :
    ∀ (dims : List (String × MetricScore)) (tws tms : ℚ),
      0 ≤ tws → tws ≤ tms → Cent tms →
      0 ≤ (scoreLoop m entries dims tws tms).2.1 ∧
      (scoreLoop m entries dims tws tms).2.1 ≤ (scoreLoop m entries dims tws tms).2.2 ∧
      Cent (scoreLoop m entries dims tws tms).2.2 := by
  induction entries with
  | nil => intro dims tws tms h0 h1 h2; exact ⟨h0, h1, h2⟩
  | cons head rest ih =>
    intro dims tws tms h0 h1 h2
    obtain ⟨name, config⟩ := head
    have hwf : BenchWf config := hE _ (List.mem_cons_self _ _)
    have hE' : ∀ p ∈ rest, BenchWf p.2 := fun p hp => hE p (List.mem_cons_of_mem _ hp)
    cases hres : resolveMetricValue m name with
    | none =>
      simp only [scoreLoop, hres]
      exact ih hE' dims tws tms h0 h1 h2
    | some v =>
      simp only [scoreLoop, hres]
      apply ih hE'
      · have := metric_weighted_nonneg (some v) config.min config.max config.ideal hwf.2.2.1
        linarith
      · have hle := metric_weighted_le (some v) config.ideal hwf.2.2.1
          (cent_of_den_eq_one hwf.2.2.2) hwf.1 hwf.2.1
        linarith
      · exact cent_add h2 (cent_hundred_mul (cent_of_den_eq_one hwf.2.2.2))

theorem scoreLoop_resolvable (m : Metrics) (entries : List (String × Benchmark)) :
    ∀ (dims : List (String × MetricScore)) (tws tms : ℚ),
      (∀ p ∈ dims, resolveMetricValue m p.1 ≠ none) →
      ∀ p ∈ (scoreLoop m entries dims tws tms).1, resolveMetricValue m p.1 ≠ none := by
  induction entries with
  | nil => intro dims tws tms hd; exact hd
  | cons head rest ih =>
    intro dims tws tms hd
    obtain ⟨name, config⟩ := head
    cases hres : resolveMetricValue m name with
    | none =>
      simp only [scoreLoop, hres]
      exact ih dims tws tms hd
    | some v =>
      simp only [scoreLoop, hres]
      apply ih
      intro p hp
      rcases List.mem_append.mp hp with hp1 | hp2
      · exact hd p hp1
      · have : p = (name, { calculate_metric_score (some v) config.min config.max config.ideal config.weight with name_cn := metricNameCn name }) := by
          simpa using hp2
        rw [this]
        simp [hres]

theorem adjFactor_cases (m : Metrics) (info : Industry) :
    adjFactor m info = 0.8 ∨ adjFactor m info = 0.88 ∨ adjFactor m info = 1
      ∨ adjFactor m info = 1.1 := by
  unfold adjFactor
  split_ifs <;> norm_num

theorem adjFactor_pos (m : Metrics) (info : Industry) : 0 < adjFactor m info := by
  unfold adjFactor
  split_ifs <;> norm_num

theorem round2_adjFactor (m : Metrics) (info : Industry) :
    round2 (adjFactor m info) = adjFactor m info := by
  rcases adjFactor_cases m info with h | h | h | h <;> rw [h]
  · exact round2_eq_self_of_mul_int (m := 80) (by norm_num)
  · exact round2_eq_self_of_mul_int (m := 88) (by norm_num)
  · exact round2_eq_self_of_mul_int (m := 100) (by norm_num)
  · exact round2_eq_self_of_mul_int (m := 110) (by norm_num)

theorem result_max_score (metrics : Metrics) (stock_code company_name : String)
    (sw_industry : Option String) :
    (calculate_industry_adjusted_score metrics stock_code company_name sw_industry).max_score
      = (scoreLoop metrics (get_industry_info (classify stock_code company_name sw_industry)).metrics [] 0 0).2.2 := rfl

theorem result_adjustment_factor (metrics : Metrics) (stock_code company_name : String)
    (sw_industry : Option String) :
    (calculate_industry_adjusted_score metrics stock_code company_name sw_industry).adjustment_factor
      = round2 (adjFactor metrics (get_industry_info (classify stock_code company_name sw_industry))) := rfl

theorem result_normalized_score (metrics : Metrics) (stock_code company_name : String)
    (sw_industry : Option String) :
    (calculate_industry_adjusted_score metrics stock_code company_name sw_industry).normalized_score
      = round2 (if (scoreLoop metrics (get_industry_info (classify stock_code company_name sw_industry)).metrics [] 0 0).2.2 > 0
          then round2 ((scoreLoop metrics (get_industry_info (classify stock_code company_name sw_industry)).metrics [] 0 0).2.1
                * adjFactor metrics (get_industry_info (classify stock_code company_name sw_industry)))
              / (scoreLoop metrics (get_industry_info (classify stock_code company_name sw_industry)).metrics [] 0 0).2.2 * 100
          else 0) := rfl

theorem result_dimension_scores (metrics : Metrics) (stock_code company_name : String)
    (sw_industry : Option String) :
    (calculate_industry_adjusted_score metrics stock_code company_name sw_industry).dimension_scores
      = (scoreLoop metrics (get_industry_info (classify stock_code company_name sw_industry)).metrics [] 0 0).1 := rfl

theorem result_industry_comparison (metrics : Metrics) (stock_code company_name : String)
    (sw_industry : Option String) :
    (calculate_industry_adjusted_score metrics stock_code company_name sw_industry).industry_comparison
      = generate_comparison metrics (get_industry_info (classify stock_code company_name sw_industry)).metrics := rfl

theorem classify_none_sw_code (stock_code name industry : String)
    (h : classify_by_stock_code stock_code = some industry) :
    classify stock_code name none = industry := by
  unfold classify
  rw [h]

theorem dget_append {α : Type} (l1 l2 : List (String × α)) (k : String) :
    dget (l1 ++ l2) k = match dget l1 k with
      | some v => some v
      | none => dget l2 k := by
  induction l1 with
  | nil => simp [dget]
  | cons head rest ih =>
    obtain ⟨k1, v1⟩ := head
    by_cases hk : k1 = k
    · simp [dget, hk]
    · simp only [List.cons_append, dget, if_neg hk]
      exact ih

theorem dget_append_none {α : Type} {l1 : List (String × α)} {k : String}
    (h : dget l1 k = none) (l2 : List (String × α)) :
    dget (l1 ++ l2) k = dget l2 k := by
  rw [dget_append, h]

theorem dget_ite_none {α : Type} (c : Prop) [Decidable c] {l1 l2 : List (String × α)}
    {k : String} (h1 : dget l1 k = none) (h2 : dget l2 k = none) :
    dget (if c then l1 else l2) k = none := by
  split_ifs <;> assumption

theorem pyGetOr_eq_zero_imp (m : Metrics) (k : String) (d : ℚ) :
    pyGetOr m k d = 0 → d = 0 := by
  unfold pyGetOr pyOr
  cases dgetJ m k with
  | none => exact fun h => h
  | some v =>
    dsimp only
    intro h
    split_ifs at h with hv
    · exact h
    · exact absurd h hv

/-- Reading back a value that was itself produced by `get(k) or d` through a
fresh `(k, some value)` entry gives the same value. -/
theorem pyGetOr_roundtrip (m : Metrics) (k : String) (d : ℚ) (rest : Metrics) :
    pyGetOr ((k, some (pyGetOr m k d)) :: rest) k d = pyGetOr m k d := by
  have hx : dgetJ ((k, some (pyGetOr m k d)) :: rest) k = some (pyGetOr m k d) := by
    simp [dgetJ, dget]
  show pyOr (dgetJ ((k, some (pyGetOr m k d)) :: rest) k) d = pyGetOr m k d
  rw [hx]
  show (if pyGetOr m k d = 0 then d else pyGetOr m k d) = pyGetOr m k d
  split_ifs with h
  · rw [h]; exact pyGetOr_eq_zero_imp m k d h
  · rfl

theorem pyGetOr_skip (k k1 : String) (v1 : Option ℚ) (d : ℚ)
    (h : k1 ≠ k) (rest : Metrics) :
    pyGetOr ((k1, v1) :: rest) k d = pyGetOr rest k d := by
  unfold pyGetOr dgetJ
  rw [dget]
  rw [if_neg h]

/-- The comparison generator never invents keys: a key that is not a metric
name of the industry table is absent from the comparison. -/
theorem generate_comparison_none (m : Metrics) (l : List (String × Benchmark))
    (k : String) (h : ∀ p ∈ l, p.1 ≠ k) :
    dget (generate_comparison m l) k = none := by
  induction l with
  | nil => rfl
  | cons head rest ih =>
    obtain ⟨k1, cfg⟩ := head
    have hk1 : k1 ≠ k := h _ (List.mem_cons_self _ _)
    have h' : ∀ p ∈ rest, p.1 ≠ k := fun p hp => h p (List.mem_cons_of_mem _ hp)
    simp only [generate_comparison]
    cases hv : dgetJ m k1 with
    | none => exact ih h'
    | some v0 =>
      split_ifs with hi
      · exact ih h'
      · rw [dget, if_neg hk1]
        exact ih h'

/-- Lookup of one resolved metric in the generated industry comparison. -/
theorem generate_comparison_lookup (m : Metrics) (l : List (String × Benchmark))
    (hnd : (l.map Prod.fst).Nodup) {name : String} {config : Benchmark}
    (hmem : (name, config) ∈ l) {v : ℚ} (hv : dgetJ m name = some v)
    (hi : config.ideal ≠ 0) :
    dget (generate_comparison m l) name = some
      { company_value := round2 v
      , industry_ideal := config.ideal
      , difference := round2 (v - config.ideal)
      , difference_pct := round2 ((v - config.ideal) / config.ideal * 100)
      , status := if |(v - config.ideal) / config.ideal * 100| ≤ 10 then "at"
          else if v - config.ideal > 0 then "above" else "below"
      , status_cn := if |(v - config.ideal) / config.ideal * 100| ≤ 10 then "持平"
          else if v - config.ideal > 0 then "优于" else "低于" } := by
  induction l with
  | nil => cases hmem
  | cons head rest ih =>
    obtain ⟨k1, cfg1⟩ := head
    rw [List.map_cons, List.nodup_cons] at hnd
    by_cases hk : k1 = name
    · subst hk
      have hcfg : cfg1 = config := by
        rcases List.mem_cons.mp hmem with heq | htail
        · exact congrArg Prod.snd heq.symm
        · exact absurd (List.mem_map_of_mem Prod.fst htail) hnd.1
      subst hcfg
      simp only [generate_comparison, hv, safe_float, Option.getD]
      rw [if_neg hi]
      simp only [dget, if_pos rfl]
      by_cases h1 : |(v - cfg1.ideal) / cfg1.ideal * 100| ≤ 10
      · simp [h1]
      · by_cases h2 : v - cfg1.ideal > 0 <;> simp [h1, h2]
    · have hmem' : (name, config) ∈ rest := by
        rcases List.mem_cons.mp hmem with heq | htail
        · injection heq with h1 h2; exact absurd h1.symm hk
        · exact htail
      simp only [generate_comparison]
      cases hv1 : dgetJ m k1 with
      | none => exact ih hnd.2 hmem'
      | some v1 =>
        dsimp only
        by_cases hi1 : cfg1.ideal = 0
        · rw [if_pos hi1]
          exact ih hnd.2 hmem'
        · rw [if_neg hi1]
          simp only [dget, if_neg hk]
          exact ih hnd.2 hmem'

/-! ### Claim theorems -/

/-- The exact metrics dict of the generic-scorer end-to-end example of the
spec (claim C1). -/
def c1Metrics : Metrics :=
  [ ("roe", some 25.18), ("debt_ratio", some 12.81), ("asset_turnover", some 0.43)
  , ("net_profit_margin", some 51.11), ("ocf_to_np", some 57.1) ]

/-- C1 counterexample: on the spec example input, `calculate_health_score_v2`
scores the cashflow dimension 15 (since 57.1 > 1.2) and totals 82, not the
cashflow 0 and total 67 that the claim states. -/
theorem C1_counterexample :
    (calculate_health_score_v2 c1Metrics).cashflow.score = 15 ∧
    (calculate_health_score_v2 c1Metrics).total_score = 82 ∧
    ¬((calculate_health_score_v2 c1Metrics).cashflow.score = 0 ∧
      (calculate_health_score_v2 c1Metrics).total_score = 67) := by
  with_unfolding_all decide

/-- C1 amended: for the input `{roe: 25.18, debt_ratio: 12.81,
asset_turnover: 0.43, net_profit_margin: 51.11, ocf_to_np: 57.1}`, the
generic health scorer returns profitability 25, solvency 25, efficiency 5,
growth 12, cashflow 15 and total score 82: a percentage-valued `ocf_to_np`
always clears the ratio-scale threshold 1.2, so the unit mismatch inflates,
rather than zeroes, the cashflow dimension. -/
theorem C1_amended :
    (calculate_health_score_v2 c1Metrics).profitability.score = 25 ∧
    (calculate_health_score_v2 c1Metrics).solvency.score = 25 ∧
    (calculate_health_score_v2 c1Metrics).efficiency.score = 5 ∧
    (calculate_health_score_v2 c1Metrics).growth.score = 12 ∧
    (calculate_health_score_v2 c1Metrics).cashflow.score = 15 ∧
    (calculate_health_score_v2 c1Metrics).total_score = 82 := by
  with_unfolding_all decide

/-- C2: the per-metric score of `calculate_metric_score`, case by case: the
in-range distance-from-ideal formula (exactly 100 at the ideal), the
degenerate zero-width range, the below-minimum and above-maximum
proportional fallbacks with their zero-denominator guards, and
`weighted_score = round(score * weight, 2)`.  The out-of-range cases assume
the benchmark invariant `min ≤ max`. -/
theorem C2_metric_score_cases (v mn mx ideal w : ℚ) :
    (mn ≤ v → v ≤ mx → mx - mn ≠ 0 →
      (calculate_metric_score (some v) mn mx ideal w).score
        = round2 (max 0 (100 * (1 - |v - ideal| / ((mx - mn) / 2))))) ∧
    (mn ≤ v → v ≤ mx → mx - mn ≠ 0 → v = ideal →
      (calculate_metric_score (some v) mn mx ideal w).score = 100) ∧
    (mn ≤ v → v ≤ mx → mx - mn = 0 →
      (calculate_metric_score (some v) mn mx ideal w).score
        = if v = ideal then 100 else 50) ∧
    (v < mn → mn ≠ 0 →
      (calculate_metric_score (some v) mn mx ideal w).score
        = round2 (max 0 (100 * (v / mn)))) ∧
    (v < mn → mn = 0 →
      (calculate_metric_score (some v) mn mx ideal w).score = 0) ∧
    (mn ≤ mx → mx < v → v ≠ 0 →
      (calculate_metric_score (some v) mn mx ideal w).score
        = round2 (max 0 (100 * (mx / v)))) ∧
    (mn ≤ mx → mx < v → v = 0 →
      (calculate_metric_score (some v) mn mx ideal w).score = 0) ∧
    (calculate_metric_score (some v) mn mx ideal w).weighted_score
      = round2 ((calculate_metric_score (some v) mn mx ideal w).score * w) := by
  refine ⟨?_, ?_, ?_, ?_, ?_, ?_, ?_, weighted_score_eq v mn mx ideal w⟩
  · intro h1 h2 h3
    simp only [calculate_metric_score]
    rw [if_pos ⟨h1, h2⟩, if_neg h3]
  · intro h1 h2 h3 h4
    simp only [calculate_metric_score]
    rw [if_pos ⟨h1, h2⟩, if_neg h3, h4]
    have h5 : max (0 : ℚ) (100 * (1 - |ideal - ideal| / ((mx - mn) / 2))) = 100 := by
      rw [sub_self, abs_zero, zero_div, sub_zero, mul_one]
      exact max_eq_right (by norm_num)
    rw [h5, round2_hundred]
  · intro h1 h2 h3
    simp only [calculate_metric_score]
    rw [if_pos ⟨h1, h2⟩, if_pos h3]
    by_cases h4 : v = ideal
    · rw [if_pos h4, round2_hundred]
    · rw [if_neg h4]
      exact round2_eq_self_of_mul_int (m := 5000) (by norm_num)
  · intro h1 h2
    simp only [calculate_metric_score]
    rw [if_neg (fun hcon => absurd h1 (not_lt.mpr hcon.1)), if_pos h1, if_pos h2]
  · intro h1 h2
    simp only [calculate_metric_score]
    rw [if_neg (fun hcon => absurd h1 (not_lt.mpr hcon.1)), if_pos h1,
      if_neg (not_not_intro h2), round2_zero]
  · intro h0 h1 h2
    simp only [calculate_metric_score]
    have hnlt : ¬(v < mn) := not_lt.mpr (le_of_lt (lt_of_le_of_lt h0 h1))
    rw [if_neg (fun hcon => absurd h1 (not_lt.mpr hcon.2)), if_neg hnlt, if_pos h2]
  · intro h0 h1 h2
    simp only [calculate_metric_score]
    have hnlt : ¬(v < mn) := not_lt.mpr (le_of_lt (lt_of_le_of_lt h0 h1))
    rw [if_neg (fun hcon => absurd h1 (not_lt.mpr hcon.2)), if_neg hnlt,
      if_neg (not_not_intro h2), round2_zero]

/-- C2 witness: the in-range-at-ideal case and the weighted-score equation at
a concrete benchmark. -/
theorem C2_witness :
    (calculate_metric_score (some 5) 0 10 5 (1/2)).score = 100 ∧
    (calculate_metric_score (some 5) 0 10 5 (1/2)).weighted_score
      = round2 ((calculate_metric_score (some 5) 0 10 5 (1/2)).score * (1/2)) :=
  ⟨(C2_metric_score_cases 5 0 10 5 (1/2)).2.1 (by norm_num) (by norm_num) (by norm_num) rfl,
   (C2_metric_score_cases 5 0 10 5 (1/2)).2.2.2.2.2.2.2⟩

/-- C4 counterexample: for the consumer `asset_turnover` benchmark
`{min 0.4, max 1.2, ideal 0.75}`, the values 1.18 and 1.2 are both in range
with strictly increasing distance from the ideal, yet both score exactly 0
(the 0-floor of the in-range formula), so the score does not strictly
decrease. -/
theorem C4_counterexample :
    (0.4 : ℚ) ≤ 1.18 ∧ (1.18 : ℚ) ≤ 1.2 ∧ (0.4 : ℚ) ≤ 1.2 ∧ (1.2 : ℚ) ≤ 1.2 ∧
    (0.4 : ℚ) < 1.2 ∧ |(1.18 : ℚ) - 0.75| < |(1.2 : ℚ) - 0.75| ∧
    (calculate_metric_score (some 1.18) 0.4 1.2 0.75 0.1).score = 0 ∧
    (calculate_metric_score (some 1.2) 0.4 1.2 0.75 0.1).score = 0 ∧
    ¬((calculate_metric_score (some 1.18) 0.4 1.2 0.75 0.1).score
        > (calculate_metric_score (some 1.2) 0.4 1.2 0.75 0.1).score) := by
  with_unfolding_all decide

/-- C4 amended: within a non-degenerate range, the per-metric score is
weakly decreasing in the distance from the ideal (the strict version fails
because of the 0-floor and the 2-decimal rounding). -/
theorem C4_amended (mn mx ideal w v1 v2 : ℚ) (hlt : mn < mx)
    (h1a : mn ≤ v1) (h1b : v1 ≤ mx) (h2a : mn ≤ v2) (h2b : v2 ≤ mx)
    (hd : |v1 - ideal| < |v2 - ideal|) :
    (calculate_metric_score (some v2) mn mx ideal w).score
      ≤ (calculate_metric_score (some v1) mn mx ideal w).score := by
  simp only [calculate_metric_score]
  have hw : mx - mn ≠ 0 := sub_ne_zero.mpr (ne_of_gt hlt)
  rw [if_pos (And.intro h2a h2b), if_pos (And.intro h1a h1b), if_neg hw, if_neg hw]
  apply round2_mono
  apply max_le_max le_rfl
  have hmd : 0 < (mx - mn) / 2 := by linarith
  have hdiv : |v1 - ideal| / ((mx - mn) / 2) ≤ |v2 - ideal| / ((mx - mn) / 2) := by
    gcongr
  linarith

/-- C4 witness: the weak monotonicity applied at a concrete in-range pair. -/
theorem C4_witness :
    (calculate_metric_score (some 6) 0 10 5 1).score
      ≤ (calculate_metric_score (some 5) 0 10 5 1).score :=
  C4_amended 0 10 5 1 5 6 (by norm_num) (by norm_num) (by norm_num) (by norm_num)
    (by norm_num) (by norm_num)

/-- C5: the classifier resolves `688981` to technology for every company
name, `601668`/中国建筑 to construction via the stock-example table, an
unknown code with a consumer keyword in the name to consumer, and an unknown
code with an empty name to the manufacturing default. -/
theorem C5_classifier :
    (∀ name : String, classify "688981" name none = "technology") ∧
    classify "601668" "中国建筑" none = "construction" ∧
    classify_by_stock_code "999999" = none ∧
    classify "999999" "白酒" none = "consumer" ∧
    classify "999999" "" none = "manufacturing" := by
  refine ⟨fun name => classify_none_sw_code "688981" name "technology"
    (by with_unfolding_all decide), ?_, ?_, ?_, ?_⟩
  · with_unfolding_all decide
  · with_unfolding_all decide
  · with_unfolding_all decide
  · with_unfolding_all decide

/-- C5 witness: the universally quantified first clause instantiated at a
concrete company name. -/
theorem C5_witness : classify "688981" "中芯国际" none = "technology" :=
  C5_classifier.1 "中芯国际"

/-- C9: in the generic health scorer, a `debt_ratio` that is present and
exactly 0 is coerced to the worst-case default 100 by `get(...) or 100` and
receives solvency score 5, exactly like a missing `debt_ratio` or one above
70, while every positive `debt_ratio` below 40 receives 25. -/
theorem C9_zero_debt_ratio (metrics : Metrics) :
    (dgetJ metrics "debt_ratio" = some 0 →
      (calculate_health_score_v2 metrics).solvency.score = 5) ∧
    (dget metrics "debt_ratio" = none →
      (calculate_health_score_v2 metrics).solvency.score = 5) ∧
    (∀ v : ℚ, 70 < v → dgetJ metrics "debt_ratio" = some v →
      (calculate_health_score_v2 metrics).solvency.score = 5) ∧
    (∀ v : ℚ, 0 < v → v < 40 → dgetJ metrics "debt_ratio" = some v →
      (calculate_health_score_v2 metrics).solvency.score = 25) := by
  refine ⟨?_, ?_, ?_, ?_⟩
  · intro h
    have hd : pyGetOr metrics "debt_ratio" 100 = 100 := by
      unfold pyGetOr
      rw [h]
      simp [pyOr]
    unfold calculate_health_score_v2
    rw [hd]
    norm_num [healthDimsCore]
  · intro h
    have hd : pyGetOr metrics "debt_ratio" 100 = 100 := by
      unfold pyGetOr dgetJ
      rw [h]
      simp [pyOr]
    unfold calculate_health_score_v2
    rw [hd]
    norm_num [healthDimsCore]
  · intro v hv h
    have hd : pyGetOr metrics "debt_ratio" 100 = v := by
      unfold pyGetOr
      rw [h]
      simp [pyOr, ne_of_gt (lt_trans (by norm_num : (0:ℚ) < 70) hv)]
    unfold calculate_health_score_v2
    rw [hd]
    simp only [healthDimsCore]
    rw [if_neg (by linarith), if_neg (by linarith), if_neg (by linarith), if_neg (by linarith)]
  · intro v hv0 hv40 h
    have hd : pyGetOr metrics "debt_ratio" 100 = v := by
      unfold pyGetOr
      rw [h]
      simp [pyOr, ne_of_gt hv0]
    unfold calculate_health_score_v2
    rw [hd]
    simp only [healthDimsCore]
    rw [if_pos hv40]

/-- C9 witness: a present zero `debt_ratio` scores 5, a present 20 scores
25. -/
theorem C9_witness :
    (calculate_health_score_v2 [("debt_ratio", some 0)]).solvency.score = 5 ∧
    (calculate_health_score_v2 [("debt_ratio", some 20)]).solvency.score = 25 :=
  ⟨(C9_zero_debt_ratio _).1 (by with_unfolding_all decide),
   (C9_zero_debt_ratio _).2.2.2 20 (by norm_num) (by norm_num) (by with_unfolding_all decide)⟩

/-- The technology-industry input showing the 1.1 R&D bonus pushing the
normalized score above 100: every benchmarked metric at its ideal except
`rd_ratio = 15.5`, which still triggers the bonus. -/
def c3Metrics : Metrics :=
  [ ("gross_margin", some 55), ("net_margin", some 22), ("roe", some 18), ("roa", some 12)
  , ("debt_ratio", some 30), ("asset_turnover", some 0.8), ("rd_ratio", some 15.5) ]

set_option maxRecDepth 20000 in
/-- C3 counterexample: an industry-adjusted score of 104.75 > 100, produced
by the high-R&D 1.1 bonus on a technology stock, refuting the claimed
`[0, 100]` invariant of `normalized_score`. -/
theorem C3_counterexample :
    (calculate_industry_adjusted_score c3Metrics "688981" "" none).normalized_score = 104.75 ∧
    ¬((calculate_industry_adjusted_score c3Metrics "688981" "" none).normalized_score ≤ 100) := by
  with_unfolding_all decide

/-- C3 amended: `normalized_score` is always nonnegative, and it is at most
100 whenever the adjustment factor is at most 1 (in particular whenever the
1.1 high-R&D bonus did not fire); with the bonus it can exceed 100. -/
theorem C3_amended (metrics : Metrics) (stock_code company_name : String)
    (sw_industry : Option String) :
    0 ≤ (calculate_industry_adjusted_score metrics stock_code company_name sw_industry).normalized_score ∧
    ((calculate_industry_adjusted_score metrics stock_code company_name sw_industry).adjustment_factor ≤ 1 →
      (calculate_industry_adjusted_score metrics stock_code company_name sw_industry).normalized_score ≤ 100) := by
  have hmem := get_industry_info_mem (classify stock_code company_name sw_industry)
  have hwf := industry_benchmarks_wf _ hmem
  obtain ⟨htws0, htwle, hcent⟩ := scoreLoop_bounds metrics
    (get_industry_info (classify stock_code company_name sw_industry)).metrics hwf [] 0 0
    le_rfl le_rfl cent_zero
  rw [result_normalized_score metrics stock_code company_name sw_industry,
    result_adjustment_factor metrics stock_code company_name sw_industry]
  constructor
  · apply round2_nonneg
    split_ifs with htmspos
    · have hf := adjFactor_pos metrics (get_industry_info (classify stock_code company_name sw_industry))
      have h1 : 0 ≤ round2 ((scoreLoop metrics (get_industry_info (classify stock_code company_name sw_industry)).metrics [] 0 0).2.1
          * adjFactor metrics (get_industry_info (classify stock_code company_name sw_industry))) :=
        round2_nonneg (mul_nonneg htws0 hf.le)
      exact mul_nonneg (div_nonneg h1 (le_of_lt htmspos)) (by norm_num)
    · exact le_rfl
  · intro hle
    rw [round2_adjFactor] at hle
    refine le_trans (round2_mono ?_) round2_hundred.le
    split_ifs with htmspos
    · have h1 : (scoreLoop metrics (get_industry_info (classify stock_code company_name sw_industry)).metrics [] 0 0).2.1
          * adjFactor metrics (get_industry_info (classify stock_code company_name sw_industry))
          ≤ (scoreLoop metrics (get_industry_info (classify stock_code company_name sw_industry)).metrics [] 0 0).2.2 :=
        le_trans (mul_le_of_le_one_right htws0 hle) htwle
      have h2 := le_trans (round2_mono h1) (round2_eq_self_of_cent hcent).le
      have h3 := (div_le_one htmspos).mpr h2
      linarith
    · norm_num

/-- C3 witness: for an empty metrics dict the amended bounds hold, with the
factor hypothesis discharged by evaluation. -/
theorem C3_witness :
    0 ≤ (calculate_industry_adjusted_score [] "" "" none).normalized_score ∧
    (calculate_industry_adjusted_score [] "" "" none).normalized_score ≤ 100 :=
  ⟨(C3_amended [] "" "" none).1, (C3_amended [] "" "" none).2 (by with_unfolding_all decide)⟩

/-- C8: the error-handling contract of both scorers: a degenerate
`total_max_score = 0` yields `normalized_score = 0` instead of an error;
every metric appearing in `dimension_scores` has a resolvable value
(unresolvable metrics are excluded); and the generic health scorer factors
through worst-case substitution of its five driving metrics, so it is total
on any metrics dict.  Both embedded scorers are total Lean functions in
which every division of the source sits under the guard the source gives
it. -/
theorem C8_error_handling (metrics : Metrics) (stock_code company_name : String)
    (sw_industry : Option String) :
    ((calculate_industry_adjusted_score metrics stock_code company_name sw_industry).max_score = 0 →
      (calculate_industry_adjusted_score metrics stock_code company_name sw_industry).normalized_score = 0) ∧
    (∀ p ∈ (calculate_industry_adjusted_score metrics stock_code company_name sw_industry).dimension_scores,
      resolveMetricValue metrics p.1 ≠ none) ∧
    calculate_health_score_v2 metrics = calculate_health_score_v2
      [ ("roe", some (pyGetOr metrics "roe" 0))
      , ("debt_ratio", some (pyGetOr metrics "debt_ratio" 100))
      , ("asset_turnover", some (pyGetOr metrics "asset_turnover" 0))
      , ("net_profit_margin", some (pyGetOr metrics "net_profit_margin" 0))
      , ("ocf_to_np", some (pyGetOr metrics "ocf_to_np" 0)) ] := by
  refine ⟨?_, ?_, ?_⟩
  · intro h
    rw [result_max_score] at h
    rw [result_normalized_score, h]
    simp [round2_zero]
  · rw [result_dimension_scores]
    exact scoreLoop_resolvable metrics _ [] 0 0 (by intro p hp; cases hp)
  · unfold calculate_health_score_v2
    congr 1
    · exact (pyGetOr_roundtrip metrics "roe" 0 _).symm
    · rw [pyGetOr_skip "debt_ratio" "roe" _ 100 (by decide), pyGetOr_roundtrip]
    · rw [pyGetOr_skip "asset_turnover" "roe" _ 0 (by decide),
        pyGetOr_skip "asset_turnover" "debt_ratio" _ 0 (by decide), pyGetOr_roundtrip]
    · rw [pyGetOr_skip "net_profit_margin" "roe" _ 0 (by decide),
        pyGetOr_skip "net_profit_margin" "debt_ratio" _ 0 (by decide),
        pyGetOr_skip "net_profit_margin" "asset_turnover" _ 0 (by decide), pyGetOr_roundtrip]
    · rw [pyGetOr_skip "ocf_to_np" "roe" _ 0 (by decide),
        pyGetOr_skip "ocf_to_np" "debt_ratio" _ 0 (by decide),
        pyGetOr_skip "ocf_to_np" "asset_turnover" _ 0 (by decide),
        pyGetOr_skip "ocf_to_np" "net_profit_margin" _ 0 (by decide), pyGetOr_roundtrip]

/-- C8 witness: the degenerate-benchmark clause applied to the empty metrics
dict, where nothing resolves and the normalized score is defined as 0. -/
theorem C8_witness :
    (calculate_industry_adjusted_score [] "" "" none).normalized_score = 0 :=
  (C8_error_handling [] "" "" none).1 (by with_unfolding_all decide)

set_option maxRecDepth 20000 in
/-- C10: for the construction industry (a `cashflow_critical` industry,
classified from code 601668), a metrics dict carrying `ocf_to_np = None`
makes `safe_float` coerce the stored null to 0 < 0.5 and the 0.8 deduction
fires, while a dict without the key falls back to the `get` default 1 and no
deduction fires; on a concrete input the two final scores differ (80
against 100). -/
theorem C10_null_vs_absent (metrics : Metrics) :
    (dget metrics "ocf_to_np" = some none →
      (calculate_industry_adjusted_score metrics "601668" "" none).adjustment_factor = 0.8) ∧
    (dget metrics "ocf_to_np" = none →
      (calculate_industry_adjusted_score metrics "601668" "" none).adjustment_factor = 1) ∧
    (calculate_industry_adjusted_score [("roe", some 12), ("ocf_to_np", none)] "601668" "" none).normalized_score
      ≠ (calculate_industry_adjusted_score [("roe", some 12)] "601668" "" none).normalized_score := by
  have hcl : classify "601668" "" none = "construction" := by with_unfolding_all decide
  have hinfo : get_industry_info (classify "601668" "" none) = constructionIndustry := by
    rw [hcl]
    rfl
  refine ⟨?_, ?_, ?_⟩
  · intro h
    rw [result_adjustment_factor, hinfo]
    have hr : ruleGet metrics "ocf_to_np" 1 = 0 := by
      unfold ruleGet
      rw [h]
      rfl
    unfold adjFactor
    rw [hr]
    have hcond : constructionIndustry.special_rules.cashflow_critical = true ∧ (0 : ℚ) < 0.5 :=
      ⟨rfl, by norm_num⟩
    rw [if_pos hcond]
    rw [if_neg (fun hcon =>
      (by with_unfolding_all decide : ¬constructionIndustry.special_rules.high_rd_bonus = true) hcon.1)]
    rw [mul_one]
    exact round2_eq_self_of_mul_int (m := 80) (by norm_num)
  · intro h
    rw [result_adjustment_factor, hinfo]
    have hr : ruleGet metrics "ocf_to_np" 1 = 1 := by
      unfold ruleGet
      rw [h]
      rfl
    unfold adjFactor
    rw [hr]
    rw [if_neg (fun hcon => absurd hcon.2 (by norm_num))]
    rw [if_neg (fun hcon =>
      (by with_unfolding_all decide : ¬constructionIndustry.special_rules.high_rd_bonus = true) hcon.1)]
    rw [mul_one]
    exact round2_eq_self_of_mul_int (m := 100) (by norm_num)
  · with_unfolding_all decide

/-- C10 witness: a present-null `ocf_to_np` gives factor 0.8, an absent one
gives factor 1. -/
theorem C10_witness :
    (calculate_industry_adjusted_score [("ocf_to_np", none)] "601668" "" none).adjustment_factor = 0.8 ∧
    (calculate_industry_adjusted_score [("roe", some 12)] "601668" "" none).adjustment_factor = 1 :=
  ⟨(C10_null_vs_absent _).1 rfl, (C10_null_vs_absent _).2.1 rfl⟩

/-- C6 amended: the industry comparison contains an entry (with the
documented diff, diff-pct and status fields, stored rounded to 2 decimals)
for every benchmarked metric whose value is present directly under the
canonical metric name with a nonzero ideal; the alias table of the scoring
loop is not consulted by the comparison. -/
theorem C6_amended (metrics : Metrics) (stock_code company_name : String)
    (sw_industry : Option String) (name : String) (config : Benchmark)
    (hmem : (name, config) ∈ (get_industry_info (classify stock_code company_name sw_industry)).metrics)
    (v : ℚ) (hv : dgetJ metrics name = some v) (hi : config.ideal ≠ 0) :
    dget (calculate_industry_adjusted_score metrics stock_code company_name sw_industry).industry_comparison name
      = some
        { company_value := round2 v
        , industry_ideal := config.ideal
        , difference := round2 (v - config.ideal)
        , difference_pct := round2 ((v - config.ideal) / config.ideal * 100)
        , status := if |(v - config.ideal) / config.ideal * 100| ≤ 10 then "at"
            else if v - config.ideal > 0 then "above" else "below"
        , status_cn := if |(v - config.ideal) / config.ideal * 100| ≤ 10 then "持平"
            else if v - config.ideal > 0 then "优于" else "低于" } := by
  rw [result_industry_comparison]
  exact generate_comparison_lookup metrics _
    (industry_benchmarks_names_nodup _ (get_industry_info_mem _)) hmem hv hi

set_option maxRecDepth 20000 in
/-- C6 counterexample: for a consumer stock whose net margin is supplied
only under the alias `net_profit_margin`, the metric is resolved and scored
in `dimension_scores`, its benchmark ideal 18 is nonzero, yet
`industry_comparison` has no `net_margin` entry, because the comparison
reads the dict directly without the alias table. -/
theorem C6_counterexample :
    resolveMetricValue [("net_profit_margin", some 51.26)] "net_margin" = some 51.26 ∧
    ("net_margin", (⟨8, 30, 18, 0.20⟩ : Benchmark))
      ∈ (get_industry_info (classify "600519" "" none)).metrics ∧
    (18 : ℚ) ≠ 0 ∧
    dget (calculate_industry_adjusted_score [("net_profit_margin", some 51.26)] "600519" "" none).dimension_scores
      "net_margin" ≠ none ∧
    dget (calculate_industry_adjusted_score [("net_profit_margin", some 51.26)] "600519" "" none).industry_comparison
      "net_margin" = none := by
  refine ⟨?_, ?_, ?_, ?_, ?_⟩
  · simp [resolveMetricValue, dgetJ, dget, aliasesFor, firstAliasValue]
  · with_unfolding_all decide
  · norm_num
  · with_unfolding_all decide
  · with_unfolding_all decide

set_option maxRecDepth 20000 in
/-- C6 witness: a consumer stock with `roe = 22`, exactly the industry
ideal, gets an `at` comparison entry with diff 0 and diff-pct 0. -/
theorem C6_witness :
    dget (calculate_industry_adjusted_score [("roe", some 22)] "600519" "" none).industry_comparison "roe"
      = some ⟨22, 22, 0, 0, "at", "持平"⟩ := by
  have hcl : classify "600519" "" none = "consumer" := by with_unfolding_all decide
  have h := C6_amended [("roe", some 22)] "600519" "" none "roe" ⟨12, 35, 22, 0.30⟩
    (by rw [hcl]; with_unfolding_all decide) 22 (by simp [dgetJ, dget]) (by norm_num)
  rw [h]
  have h22 : round2 22 = 22 := round2_eq_self_of_mul_int (m := 2200) (by norm_num)
  norm_num [h22, round2_zero]

theorem dget_eq_none_of_forall {α : Type} (l : List (String × α)) (k : String)
    (h : ∀ p ∈ l, p.1 ≠ k) : dget l k = none := by
  induction l with
  | nil => rfl
  | cons head rest ih =>
    rw [dget, if_neg (h head (List.mem_cons_self _ _))]
    exact ih (fun p hp => h p (List.mem_cons_of_mem _ hp))

theorem mem_ite_list {α : Type} {c : Prop} {inst : Decidable c} {l1 l2 : List α} {a : α}
    (h : a ∈ @ite _ c inst l1 l2) : a ∈ l1 ∨ a ∈ l2 := by
  cases inst with
  | isFalse hc => exact Or.inr (by rwa [if_neg hc] at h)
  | isTrue hc => exact Or.inl (by rwa [if_pos hc] at h)

/-- Every key produced by the cash-flow block of
`calculate_advanced_metrics`. -/
theorem advCashflowEntries_keys (np : ℚ) (cf : Metrics) :
    ∀ p ∈ advCashflowEntries np cf, p.1 ∈
      (["ocf_to_np", "operating_cash_flow_billion", "investing_cash_flow_billion",
        "financing_cash_flow_billion", "free_cash_flow_billion", "capex_billion",
        "net_cash_increase_billion", "ending_cash_billion", "dividends_paid_billion",
        "cash_quality", "capex_ratio"] : List String) := by
  intro p hp
  unfold advCashflowEntries at hp
  rcases List.mem_append.mp hp with hp | hp
  · rcases List.mem_append.mp hp with hp | hp
    · rcases List.mem_append.mp hp with hp | hp
      · rcases mem_ite_list hp with hp | hp
        · rcases List.mem_cons.mp hp with rfl | hp
          · simp
          · simp at hp
        · simp at hp
      · simp only [List.mem_cons, List.not_mem_nil, or_false] at hp
        rcases hp with rfl | rfl | rfl | rfl | rfl | rfl | rfl | rfl <;> simp
    · rcases mem_ite_list hp with hp | hp
      · rcases List.mem_cons.mp hp with rfl | hp
        · simp
        · simp at hp
      · rcases mem_ite_list hp with hp | hp
        · rcases List.mem_cons.mp hp with rfl | hp
          · simp
          · simp at hp
        · simp at hp
  · rcases mem_ite_list hp with hp | hp
    · rcases List.mem_cons.mp hp with rfl | hp
      · simp
      · simp at hp
    · simp at hp

/-- C7 counterexample: with revenue 100 and cost 0 the key `gross_margin` is
present but `None` (the numerator-truthiness guard `if cost else None`
fires), not the 100 the claim computes; with equity 100 and net profit 0 the
key `roe` is likewise `None`, not 0. -/
theorem C7_counterexample :
    advRevenue [("TOTAL_OPERATE_INCOME", some 100)] = 100 ∧
    advCost [("TOTAL_OPERATE_INCOME", some 100)] = 0 ∧
    advEquity [("TOTAL_ASSETS", some 100)] = 100 ∧
    advNetProfit [("TOTAL_OPERATE_INCOME", some 100)] = 0 ∧
    dget (calculate_advanced_metrics [("TOTAL_OPERATE_INCOME", some 100)]
      [("TOTAL_ASSETS", some 100)] none) "gross_margin" = some none ∧
    dget (calculate_advanced_metrics [("TOTAL_OPERATE_INCOME", some 100)]
      [("TOTAL_ASSETS", some 100)] none) "gross_margin" ≠ some (some 100) ∧
    dget (calculate_advanced_metrics [("TOTAL_OPERATE_INCOME", some 100)]
      [("TOTAL_ASSETS", some 100)] none) "roe" = some none ∧
    dget (calculate_advanced_metrics [("TOTAL_OPERATE_INCOME", some 100)]
      [("TOTAL_ASSETS", some 100)] none) "roe" ≠ some (some 0) := by
  refine ⟨?_, ?_, ?_, ?_, ?_, ?_, ?_, ?_⟩ <;> with_unfolding_all decide

/-- C7 amended: `gross_margin` equals `round((revenue - cost)/revenue*100, 2)`
only when `revenue > 0` and `cost ≠ 0`; it is a present `None` when
`revenue > 0` but `cost = 0`, and the key is absent when `revenue ≤ 0`.
Likewise `roe` equals `round(net_profit/equity*100, 2)` only when
`equity > 0` and `net_profit ≠ 0`; it is a present `None` when `equity > 0`
but `net_profit = 0`, and the key is absent when `equity ≤ 0` (so the
guards are the positivity of the denominator plus the truthiness of the
numerator, not a bare denominator-nonzero check). -/
theorem C7_amended (income balance : Metrics) (cashflow : Option Metrics) :
    (0 < advRevenue income → advCost income ≠ 0 →
      dget (calculate_advanced_metrics income balance cashflow) "gross_margin"
        = some (some (round2 ((advRevenue income - advCost income) / advRevenue income * 100)))) ∧
    (0 < advRevenue income → advCost income = 0 →
      dget (calculate_advanced_metrics income balance cashflow) "gross_margin" = some none) ∧
    (¬0 < advRevenue income →
      dget (calculate_advanced_metrics income balance cashflow) "gross_margin" = none) ∧
    (0 < advEquity balance → advNetProfit income ≠ 0 →
      dget (calculate_advanced_metrics income balance cashflow) "roe"
        = some (some (round2 (advNetProfit income / advEquity balance * 100)))) ∧
    (0 < advEquity balance → advNetProfit income = 0 →
      dget (calculate_advanced_metrics income balance cashflow) "roe" = some none) ∧
    (¬0 < advEquity balance →
      dget (calculate_advanced_metrics income balance cashflow) "roe" = none) := by
  refine ⟨?_, ?_, ?_, ?_, ?_, ?_⟩
  · intro h1 h2
    simp only [calculate_advanced_metrics]
    rw [if_pos h1]
    show some (if advCost income = 0 then none
      else some (round2 ((advRevenue income - advCost income) / advRevenue income * 100))) = _
    rw [if_neg h2]
  · intro h1 h2
    simp only [calculate_advanced_metrics]
    rw [if_pos h1]
    show some (if advCost income = 0 then none
      else some (round2 ((advRevenue income - advCost income) / advRevenue income * 100))) = _
    rw [if_pos h2]
  · intro h1
    simp only [calculate_advanced_metrics]
    rw [if_neg h1]
    apply dget_eq_none_of_forall
    intro p hp
    rcases List.mem_append.mp hp with hp | hpG
    · rcases List.mem_append.mp hp with hp | hpF
      · rcases List.mem_append.mp hp with hp | hpE
        · rcases List.mem_append.mp hp with hp | hpD
          · rcases List.mem_append.mp hp with hp | hpC
            · rcases List.mem_append.mp hp with hp | hpB
              · simp at hp
              · rcases mem_ite_list hpB with hp | hp
                · rcases List.mem_cons.mp hp with rfl | hp
                  · simp
                  · simp at hp
                · simp at hp
            · rcases mem_ite_list hpC with hp | hp
              · rcases List.mem_cons.mp hp with rfl | hp
                · simp
                · simp at hp
              · simp at hp
          · rcases mem_ite_list hpD with hp | hp
            · rcases List.mem_cons.mp hp with rfl | hp
              · simp
              · rcases List.mem_cons.mp hp with rfl | hp
                · simp
                · simp at hp
            · simp at hp
        · rcases mem_ite_list hpE with hp | hp
          · rcases List.mem_cons.mp hp with rfl | hp
            · simp
            · simp at hp
          · simp at hp
      · rcases mem_ite_list hpF with hp | hp
        · rcases List.mem_cons.mp hp with rfl | hp
          · simp
          · simp at hp
        · simp at hp
    · cases cashflow with
      | none => simp at hpG
      | some cf =>
        have hk := advCashflowEntries_keys _ cf p hpG
        intro hcon
        rw [hcon] at hk
        simp at hk
  · intro h1 h2
    simp only [calculate_advanced_metrics]
    rw [if_pos h1]
    by_cases hr : 0 < advRevenue income
    · rw [if_pos hr]
      show some (if advNetProfit income = 0 then none
        else some (round2 (advNetProfit income / advEquity balance * 100))) = _
      rw [if_neg h2]
    · rw [if_neg hr]
      show some (if advNetProfit income = 0 then none
        else some (round2 (advNetProfit income / advEquity balance * 100))) = _
      rw [if_neg h2]
  · intro h1 h2
    simp only [calculate_advanced_metrics]
    rw [if_pos h1]
    by_cases hr : 0 < advRevenue income
    · rw [if_pos hr]
      show some (if advNetProfit income = 0 then none
        else some (round2 (advNetProfit income / advEquity balance * 100))) = _
      rw [if_pos h2]
    · rw [if_neg hr]
      show some (if advNetProfit income = 0 then none
        else some (round2 (advNetProfit income / advEquity balance * 100))) = _
      rw [if_pos h2]
  · intro h1
    simp only [calculate_advanced_metrics]
    rw [if_neg h1, if_neg h1]
    apply dget_eq_none_of_forall
    intro p hp
    rcases List.mem_append.mp hp with hp | hpG
    · rcases List.mem_append.mp hp with hp | hpF
      · rcases List.mem_append.mp hp with hp | hpE
        · rcases List.mem_append.mp hp with hp | hpD
          · rcases List.mem_append.mp hp with hp | hpC
            · rcases List.mem_append.mp hp with hp | hpB
              · rcases mem_ite_list hp with hp | hp
                · rcases List.mem_cons.mp hp with rfl | hp
                  · simp
                  · rcases List.mem_cons.mp hp with rfl | hp
                    · simp
                    · simp at hp
                · simp at hp
              · simp at hpB
            · rcases mem_ite_list hpC with hp | hp
              · rcases List.mem_cons.mp hp with rfl | hp
                · simp
                · simp at hp
              · simp at hp
          · rcases mem_ite_list hpD with hp | hp
            · rcases List.mem_cons.mp hp with rfl | hp
              · simp
              · rcases List.mem_cons.mp hp with rfl | hp
                · simp
                · simp at hp
            · simp at hp
        · simp at hpE
      · rcases mem_ite_list hpF with hp | hp
        · rcases List.mem_cons.mp hp with rfl | hp
          · simp
          · simp at hp
        · simp at hp
    · cases cashflow with
      | none => simp at hpG
      | some cf =>
        have hk := advCashflowEntries_keys _ cf p hpG
        intro hcon
        rw [hcon] at hk
        simp at hk

/-- C7 witness: a record with revenue 100, cost 40, net profit 20, assets
100 and liabilities 50 yields `gross_margin = 60` and `roe = 40`. -/
theorem C7_witness :
    dget (calculate_advanced_metrics
        [("TOTAL_OPERATE_INCOME", some 100), ("TOTAL_OPERATE_COST", some 40), ("NETPROFIT", some 20)]
        [("TOTAL_ASSETS", some 100), ("TOTAL_LIABILITIES", some 50)] none) "gross_margin"
      = some (some 60) ∧
    dget (calculate_advanced_metrics
        [("TOTAL_OPERATE_INCOME", some 100), ("TOTAL_OPERATE_COST", some 40), ("NETPROFIT", some 20)]
        [("TOTAL_ASSETS", some 100), ("TOTAL_LIABILITIES", some 50)] none) "roe"
      = some (some 40) := by
  have hrev : advRevenue [("TOTAL_OPERATE_INCOME", some 100), ("TOTAL_OPERATE_COST", some 40), ("NETPROFIT", some 20)] = 100 := by
    with_unfolding_all decide
  have hcost : advCost [("TOTAL_OPERATE_INCOME", some 100), ("TOTAL_OPERATE_COST", some 40), ("NETPROFIT", some 20)] = 40 := by
    with_unfolding_all decide
  have hnp : advNetProfit [("TOTAL_OPERATE_INCOME", some 100), ("TOTAL_OPERATE_COST", some 40), ("NETPROFIT", some 20)] = 20 := by
    with_unfolding_all decide
  have heq : advEquity [("TOTAL_ASSETS", some 100), ("TOTAL_LIABILITIES", some 50)] = 50 := by
    with_unfolding_all decide
  have hc := C7_amended
    [("TOTAL_OPERATE_INCOME", some 100), ("TOTAL_OPERATE_COST", some 40), ("NETPROFIT", some 20)]
    [("TOTAL_ASSETS", some 100), ("TOTAL_LIABILITIES", some 50)] none
  constructor
  · rw [hc.1 (by rw [hrev]; norm_num) (by rw [hcost]; norm_num), hrev, hcost]
    rw [show ((100 : ℚ) - 40) / 100 * 100 = 60 by norm_num]
    rw [round2_eq_self_of_mul_int (m := 6000) (by norm_num)]
  · rw [hc.2.2.2.1 (by rw [heq]; norm_num) (by rw [hnp]; norm_num), hnp, heq]
    rw [show (20 : ℚ) / 50 * 100 = 40 by norm_num]
    rw [round2_eq_self_of_mul_int (m := 4000) (by norm_num)]
